import Mathlib

/-!
Verification of the wegpiraten invoicing / timesheet toolkit.

This file gives a shallow embedding of the decision logic of the repository:

* the calendar helper src/module/utils.py (get_month_period, duplicated in
  src/unused/month_period.py);
* the pydantic data model src/pydantic_models/data/invoice_row_model.py
  (InvoiceRowModel with its before-validators);
* the timesheet importer src/data_imports/batch_import_timesheets.py
  (row reading, skip logic, transactional insert);
* the entity model src/module/entity.py (zip/city split-join validator,
  name_2 cleaning);
* the invoice data loader src/invoices/modules/data_loader.py; and
* the payer/client grouping with column sums of
  src/module/invoice_processor.py.

Python floats are embedded as rationals, Python datetime dates as a record
of year/month/day with the Gregorian day counts of the datetime module, and
fallible operations (exceptions) as Option/Except values.  String-level
helpers are modelled structurally on lists of characters; numeric and date
parsing of free-form text models the Python converters for the plain
decimal/digit spellings that the importer format uses.

Pydantic is modelled with its version 2 dispatch - the only version in
which the field_validator and model_dump API used by this code exists.  A
field validator runs only when the field is present in the input
(validate_default is unset, so a defaulted field skips its validators),
and a two-parameter validator receives a ValidationInfo object as its
second argument.  The validators of this repository are written against
the version 1 values-dict API: every values.get call on the info object
raises AttributeError and every item assignment on it raises TypeError.
These exceptions propagate out of model construction (they are not
ValidationErrors) and are modelled by the PyError type; a single-argument
validator such as Entity.empty_name_2 is unaffected.  The repository
itself documents the intended version 2 idiom: the copy of the MonthPeriod
validator in unused/month_period.py reads info.data and works, while the
live copy in module/utils.py reads values.get and raises.
-/

namespace Wegpiraten

/-! ### Calendar model (Python datetime) -/

/-- Gregorian leap-year rule, as implemented by the Python datetime module. -/
def isLeapYear (y : ℕ) : Bool :=
  y % 4 == 0 && (y % 100 != 0 || y % 400 == 0)

/-- Number of days of a month, as implemented by the Python datetime module. -/
def daysInMonth (y m : ℕ) : ℕ :=
  if m = 2 then (if isLeapYear y then 29 else 28)
  else if m = 4 ∨ m = 6 ∨ m = 9 ∨ m = 11 then 30
  else 31

/-- A Python datetime/date value (time-of-day parts are never used by the code
under verification). -/
structure PyDate where
  year : ℕ
  month : ℕ
  day : ℕ
  deriving DecidableEq

/-- Constructor datetime(year, month, day): raises ValueError (modelled as
none) unless 1 <= year <= 9999, 1 <= month <= 12 and the day exists in the
month. -/
def mkDatetime (y m d : ℕ) : Option PyDate :=
  if 1 ≤ y ∧ y ≤ 9999 ∧ 1 ≤ m ∧ m ≤ 12 ∧ 1 ≤ d ∧ d ≤ daysInMonth y m then
    some ⟨y, m, d⟩
  else none

/-- Subtraction of timedelta(days=1) from a date. -/
def predDay (d : PyDate) : PyDate :=
  if 1 < d.day then ⟨d.year, d.month, d.day - 1⟩
  else if 1 < d.month then ⟨d.year, d.month - 1, daysInMonth d.year (d.month - 1)⟩
  else ⟨d.year - 1, 12, 31⟩

/-- Lexicographic date comparison of the datetime module. -/
def dateLt (a b : PyDate) : Bool :=
  decide (a.year < b.year) ||
    (decide (a.year = b.year) &&
      (decide (a.month < b.month) ||
        (decide (a.month = b.month) && decide (a.day < b.day))))

/-- Python exception kinds raised by the embedded code paths. -/
inductive PyError : Type
  | attributeError : PyError
  | typeError : PyError
  | valueError : PyError
  | validationError : PyError
  deriving DecidableEq

/-- Model of utils.MonthPeriod; the Python field named end is called endDate
here because end is a Lean keyword. -/
structure MonthPeriod where
  start : PyDate
  endDate : PyDate
  deriving DecidableEq

/-- Construction of a MonthPeriod with the live module/utils.py model: its
end_must_be_after_start validator has the two-parameter form and calls
values.get on the ValidationInfo object it receives under pydantic v2, so
every construction raises AttributeError before any date comparison
happens. -/
def mkMonthPeriod (_start _end : PyDate) : Except PyError MonthPeriod :=
  Except.error PyError.attributeError

/-- Construction of a MonthPeriod with the unused/month_period.py model:
that copy reads info.data correctly, so the validator compares the dates
and raises a ValueError (surfacing as a pydantic ValidationError) exactly
when the end date lies strictly before the start date. -/
def mkMonthPeriod_unused (s e : PyDate) : Except PyError MonthPeriod :=
  if dateLt e s then Except.error PyError.validationError
  else Except.ok ⟨s, e⟩

/-! ### String helpers for the month parser of utils.get_month_period -/

/-- Python str.split(sep) for a single-character separator, on the character
list of the string.  Empty parts are kept, exactly as in Python. -/
def splitOnChar (sep : Char) : List Char → List (List Char)
  | [] => [[]]
  | c :: cs =>
    let r := splitOnChar sep cs
    if c = sep then [] :: r
    else
      match r with
      | [] => [[c]]
      | h :: t => (c :: h) :: t

/-- Model of the Python int() conversion for the plain digit strings that the
MM.YYYY billing-month format uses (no sign, no whitespace, no underscores). -/
def digitsToNat (l : List Char) : Option ℕ :=
  if l ≠ [] ∧ l.all Char.isDigit then
    some (l.foldl (fun a c => a * 10 + (c.toNat - 48)) 0)
  else none

/-- Shared parse-and-compute part of the two textually identical
get_month_period copies (module/utils.py and unused/month_period.py):
replace the dash by a dot, split at the dot into month and year, parse
both, build the first day of the month, and obtain the last day either
directly (December) or as the first day of the next month minus one day.
The exceptions raised on malformed input (unpacking or int or datetime
errors) are modelled as ValueError. -/
def get_month_period_dates (abrechnungsmonat : String) :
    Except PyError (PyDate × PyDate) :=
  match splitOnChar '.'
      (abrechnungsmonat.toList.map fun c => if c = '-' then '.' else c) with
  | [monatStr, jahrStr] =>
    match digitsToNat monatStr, digitsToNat jahrStr with
    | some monat, some jahr =>
      match mkDatetime jahr monat 1 with
      | none => Except.error PyError.valueError
      | some start =>
        match (if monat = 12 then mkDatetime jahr 12 31
               else (mkDatetime jahr (monat + 1) 1).map predDay) with
        | none => Except.error PyError.valueError
        | some e => Except.ok (start, e)
    | _, _ => Except.error PyError.valueError
  | _ => Except.error PyError.valueError

/-- Embedding of the live module/utils.py get_month_period: compute both
dates, then construct the MonthPeriod whose validator raises under
pydantic v2. -/
def get_month_period (s : String) : Except PyError MonthPeriod :=
  (get_month_period_dates s).bind fun p => mkMonthPeriod p.1 p.2

/-- Embedding of the unused/month_period.py copy, whose validator reads
info.data and therefore behaves as documented. -/
def get_month_period_unused (s : String) : Except PyError MonthPeriod :=
  (get_month_period_dates s).bind fun p => mkMonthPeriod_unused p.1 p.2

/-- C4 evaluated against the code: the live get_month_period of
module/utils.py never returns a month period - its MonthPeriod validator
calls values.get on a ValidationInfo and raises AttributeError on every
construction, also on well-formed input such as 12.2023.  The copy in
unused/month_period.py, whose validator reads info.data correctly, returns
exactly the period the claim describes: first to last day of the month,
December ending on the 31st and leap-year February on the 29th. -/
theorem get_month_period_always_raises :
    (∀ s : String, ∃ e, get_month_period s = Except.error e) ∧
    get_month_period "12.2023" = Except.error PyError.attributeError ∧
    get_month_period_unused "12.2023" =
      Except.ok ⟨⟨2023, 12, 1⟩, ⟨2023, 12, 31⟩⟩ ∧
    get_month_period_unused "02-2024" =
      Except.ok ⟨⟨2024, 2, 1⟩, ⟨2024, 2, 29⟩⟩ := by
  refine ⟨?_, rfl, rfl, rfl⟩
  intro s
  cases h : get_month_period_dates s with
  | error e => exact ⟨e, by unfold get_month_period; rw [h]; rfl⟩
  | ok p => exact ⟨PyError.attributeError, by unfold get_month_period; rw [h]; rfl⟩

/-! ### InvoiceRowModel (src/pydantic_models/data/invoice_row_model.py) -/

/-- Validated invoice/timesheet position row.  Python floats are embedded as
rationals, the three derived money/time fields keep their Optional type. -/
structure InvoiceRowModel where
  client_id : String
  employee_id : String
  service_date : PyDate
  service_type : String
  travel_time : ℚ
  direct_time : ℚ
  indirect_time : ℚ
  billable_hours : ℚ
  hourly_rate : Option ℚ
  total_hours : Option ℚ
  total_costs : Option ℚ
  deriving DecidableEq

/-- Construction of an InvoiceRowModel from a raw payload under pydantic v2
dispatch.  For the three derived Optional fields the argument is
three-state: none models a payload without the key - the validator is
skipped and the field default is stored, 0.0 for billable_hours and None
for total_hours and total_costs; some none models an explicit Python None,
for which the before-validator (default_billable_hours,
default_total_hours or default_total_costs) runs and raises AttributeError
at values.get, because its second parameter is a ValidationInfo object and
not the version 1 values dict the code was written against; some (some q)
models an explicit number, which the validator returns unchanged (the
total_costs validator short-circuits at its value-is-None test and never
touches values in that case).  hourly_rate has no validator and is stored
as given.  Fields are validated in declaration order, so the first
offending field determines the raised exception. -/
def mkInvoiceRowModel (client_id employee_id : String) (service_date : PyDate)
    (service_type : String) (travel_time direct_time indirect_time : ℚ)
    (billable_hours : Option (Option ℚ)) (hourly_rate : Option ℚ)
    (total_hours total_costs : Option (Option ℚ)) :
    Except PyError InvoiceRowModel :=
  match billable_hours, total_hours, total_costs with
  | some none, _, _ => Except.error PyError.attributeError
  | _, some none, _ => Except.error PyError.attributeError
  | _, _, some none => Except.error PyError.attributeError
  | b, th, tc =>
    Except.ok ⟨client_id, employee_id, service_date, service_type,
      travel_time, direct_time, indirect_time,
      (match b with | some (some v) => v | _ => 0),
      hourly_rate,
      (match th with | some (some v) => some v | _ => none),
      (match tc with | some (some v) => some v | _ => none)⟩

/-- C1 evaluated against the code: a row constructed without the total_hours
key keeps the pydantic default None - the default_total_hours validator is
skipped for absent fields - and a row constructed with an explicit None
raises AttributeError at values.get; the derivation
travel + direct + indirect claimed by the spec and by the validator's own
docstring never happens (the last conjunct records that the claimed value
differs from the stored None). -/
theorem invoiceRow_total_hours_not_derived :
    (mkInvoiceRowModel "c1" "e1" ⟨2025, 1, 10⟩ "SPF" 1 2 3
        (some (some 4)) none none none).map (fun r => r.total_hours) =
      Except.ok none ∧
    mkInvoiceRowModel "c1" "e1" ⟨2025, 1, 10⟩ "SPF" 1 2 3
        (some (some 4)) none (some none) none =
      Except.error PyError.attributeError ∧
    some ((1 : ℚ) + 2 + 3) ≠ (none : Option ℚ) :=
  ⟨rfl, rfl, by simp⟩

/-- C2 evaluated against the code: a row constructed without the
billable_hours key keeps the field default 0.0 - the
default_billable_hours validator is skipped for absent fields - and a row
constructed with an explicit None (the payload _read_rows actually builds
for an empty billable cell) raises AttributeError at values.get; the
derivation direct + indirect claimed by the spec and by the validator's
own docstring never happens (the last conjunct records that the claimed
value 2 + 3 differs from the stored 0.0). -/
theorem invoiceRow_billable_hours_not_derived :
    (mkInvoiceRowModel "c1" "e1" ⟨2025, 1, 10⟩ "SPF" 1 2 3
        none none none none).map (fun r => r.billable_hours) =
      Except.ok 0 ∧
    mkInvoiceRowModel "c1" "e1" ⟨2025, 1, 10⟩ "SPF" 1 2 3
        (some none) none none none =
      Except.error PyError.attributeError ∧
    (2 : ℚ) + 3 ≠ 0 :=
  ⟨rfl, rfl, by norm_num⟩

/-! ### Defensive cell conversion (src/shared_modules/utils.py) -/

/-- Python str.strip() with the default whitespace set. -/
def pyStrip (l : List Char) : List Char :=
  ((l.dropWhile Char.isWhitespace).reverse.dropWhile Char.isWhitespace).reverse

/-- Convenience wrapper of pyStrip on strings. -/
def pyStripStr (s : String) : String := String.mk (pyStrip s.toList)

/-- Digit run folded to a number (helper of the numeric parsers). -/
def natOfDigits (l : List Char) : ℕ :=
  l.foldl (fun a c => a * 10 + (c.toNat - 48)) 0

/-- Unsigned decimal literal as accepted by Python float(): digits with an
optional single dot; at least one digit must be present. -/
def parseDecimal (l : List Char) : Option ℚ :=
  match splitOnChar '.' l with
  | [a] => (digitsToNat a).map fun n => (n : ℚ)
  | [a, b] =>
    if (a ≠ [] ∨ b ≠ []) ∧ a.all Char.isDigit ∧ b.all Char.isDigit then
      some ((natOfDigits a : ℚ) + (natOfDigits b : ℚ) / 10 ^ b.length)
    else none
  | _ => none

/-- Embedding of utils._parse_float_str: strip, drop the apostrophe-like
thousands separators and blanks, turn the decimal comma into a dot, then
convert with float().  The float() call is modelled for plain decimal
literals with an optional sign; exotic spellings (exponents, inf, nan,
underscores) are outside the modelled universe and map to none. -/
def parseFloatStr (s : String) : Option ℚ :=
  let cleaned :=
    ((pyStrip s.toList).filter fun c =>
        !(c == '’' || c == Char.ofNat 39 || c == ' ')).map
      fun c => if c = ',' then '.' else c
  match cleaned with
  | [] => none
  | c :: rest =>
    if c = '-' then (parseDecimal rest).map fun q => -q
    else if c = '+' then parseDecimal rest
    else parseDecimal (c :: rest)

/-- Parser for the strptime month directive: one or two digits, 1 to 12. -/
def parseMonthPart (l : List Char) : Option ℕ :=
  match digitsToNat l with
  | some n => if l.length ≤ 2 ∧ 1 ≤ n ∧ n ≤ 12 then some n else none
  | none => none

/-- Parser for the strptime day directive: one or two digits, 1 to 31; the
datetime constructor afterwards rejects days that do not exist in the
month. -/
def parseDayPart (l : List Char) : Option ℕ :=
  match digitsToNat l with
  | some n => if l.length ≤ 2 ∧ 1 ≤ n ∧ n ≤ 31 then some n else none
  | none => none

/-- Parser for the strptime year directive: exactly four digits. -/
def parseYearPart (l : List Char) : Option ℕ :=
  if l.length = 4 then digitsToNat l else none

/-- One strptime attempt with a year-month-day layout and the given
separator (formats %Y-%m-%d and %Y/%m/%d of utils.DATE_FORMATS). -/
def tryFormatYmd (sep : Char) (l : List Char) : Option PyDate :=
  match splitOnChar sep l with
  | [ys, ms, ds] => do
    let y ← parseYearPart ys
    let m ← parseMonthPart ms
    let d ← parseDayPart ds
    mkDatetime y m d
  | _ => none

/-- One strptime attempt with the day.month.year layout (%d.%m.%Y). -/
def tryFormatDmy (l : List Char) : Option PyDate :=
  match splitOnChar '.' l with
  | [ds, ms, ys] => do
    let d ← parseDayPart ds
    let m ← parseMonthPart ms
    let y ← parseYearPart ys
    mkDatetime y m d
  | _ => none

/-- One strptime attempt with the month.year layout (%m.%Y); the day is set
to the 1st as in utils._parse_date_str. -/
def tryFormatMy (l : List Char) : Option PyDate :=
  match splitOnChar '.' l with
  | [ms, ys] => do
    let m ← parseMonthPart ms
    let y ← parseYearPart ys
    mkDatetime y m 1
  | _ => none

/-- Embedding of utils._parse_date_str: strip, then try the formats of
DATE_FORMATS in order and return the first success. -/
def parseDateStr (s : String) : Option PyDate :=
  let t := pyStrip s.toList
  (tryFormatYmd '-' t).orElse fun _ =>
    (tryFormatDmy t).orElse fun _ =>
      (tryFormatYmd '/' t).orElse fun _ => tryFormatMy t

/-- A raw spreadsheet cell value as delivered by openpyxl with data_only:
empty cell, number (int/float, embedded as a rational), text, date or
datetime (both carry a PyDate), or a boolean. -/
inductive CellValue : Type
  | empty : CellValue
  | num : ℚ → CellValue
  | textV : String → CellValue
  | dateV : PyDate → CellValue
  | boolV : Bool → CellValue
  deriving DecidableEq

/-- Embedding of utils.to_float: the converter dictionary has entries for
NoneType, int, float and str only; every other runtime type (dates,
booleans - bool is not int in the type-keyed dictionary) yields None. -/
def toFloat : CellValue → Option ℚ
  | CellValue.empty => none
  | CellValue.num q => some q
  | CellValue.textV s => parseFloatStr s
  | CellValue.dateV _ => none
  | CellValue.boolV _ => none

/-- Embedding of utils.to_date: datetime and date values give their date,
strings are parsed with the DATE_FORMATS list, everything else yields
None. -/
def toDate : CellValue → Option PyDate
  | CellValue.empty => none
  | CellValue.num _ => none
  | CellValue.textV s => parseDateStr s
  | CellValue.dateV d => some d
  | CellValue.boolV _ => none

/-! ### Timesheet import row logic
(src/data_imports/batch_import_timesheets.py, TimeSheetsImporter._read_rows) -/

/-- The five cells of one raw position row. -/
structure RawPositionRow where
  v_date : CellValue
  v_travel : CellValue
  v_direct : CellValue
  v_indirect : CellValue
  v_billable : CellValue
  deriving DecidableEq

/-- The header fields that flow into every payload of a file. -/
structure HeaderInfo where
  client_id : String
  employee_id : String
  service_type : String
  deriving DecidableEq

/-- Embedding of the per-row part of TimeSheetsImporter._read_rows: convert
the cells defensively, skip the row (none) when the date is missing or
unparseable and the three durations sum to zero, and otherwise build the
payload and validate it into an InvoiceRowModel.  A missing date of a kept
row is replaced by the current date, passed here as the argument today.
The payload always contains the billable_hours key with the converted cell
value - a float or Python None - while hourly_rate, total_hours and
total_costs are omitted, so under pydantic v2 construction of a kept row
raises AttributeError exactly when the billable cell converts to None. -/
def read_row (today : PyDate) (header : HeaderInfo) (r : RawPositionRow) :
    Option (Except PyError InvoiceRowModel) :=
  let service_date := toDate r.v_date
  let travel := (toFloat r.v_travel).getD 0
  let direct := (toFloat r.v_direct).getD 0
  let indirect := (toFloat r.v_indirect).getD 0
  let billable := toFloat r.v_billable
  if service_date = none ∧ travel + direct + indirect = 0 then none
  else
    some (mkInvoiceRowModel
      (pyStripStr header.client_id) (pyStripStr header.employee_id)
      (service_date.getD today) (pyStripStr header.service_type)
      travel direct indirect (some billable) none none none)

/-- Row loop of TimeSheetsImporter._read_rows: skipped rows are passed over,
a ValidationError from model construction is logged (counted in the second
component) and the row dropped, and any other exception - in particular
the AttributeError of the billable_hours validator - is not caught by the
except ValidationError clause and aborts the loop, losing all remaining
rows of the file. -/
def read_rows (today : PyDate) (header : HeaderInfo) :
    List RawPositionRow → Except PyError (List InvoiceRowModel × ℕ)
  | [] => Except.ok ([], 0)
  | r :: rs =>
    match read_row today header r with
    | none => read_rows today header rs
    | some (Except.error e) =>
      if e = PyError.validationError then
        (read_rows today header rs).map fun p => (p.1, p.2 + 1)
      else Except.error e
    | some (Except.ok row) =>
      (read_rows today header rs).map fun p => (row :: p.1, p.2)

/-- C3 (amended): a raw position row is skipped if and only if its date cell
is empty or unparseable and the three duration fields sum to zero; every
other row is passed to model validation, which succeeds exactly when the
billable cell converts to a float and raises AttributeError when the
billable cell is empty or unparseable.  With only non-negative durations
the skip condition coincides with the all-zero condition of the original
claim, but the code tests the sum, not each field. -/
theorem read_row_skip_iff (today : PyDate) (h : HeaderInfo) (r : RawPositionRow) :
    (read_row today h r = none ↔
      (toDate r.v_date = none ∧
        (toFloat r.v_travel).getD 0 + (toFloat r.v_direct).getD 0 +
          (toFloat r.v_indirect).getD 0 = 0)) ∧
    (read_row today h r = some (Except.error PyError.attributeError) ↔
      (¬(toDate r.v_date = none ∧
          (toFloat r.v_travel).getD 0 + (toFloat r.v_direct).getD 0 +
            (toFloat r.v_indirect).getD 0 = 0) ∧
        toFloat r.v_billable = none)) ∧
    ((∃ row, read_row today h r = some (Except.ok row)) ↔
      (¬(toDate r.v_date = none ∧
          (toFloat r.v_travel).getD 0 + (toFloat r.v_direct).getD 0 +
            (toFloat r.v_indirect).getD 0 = 0) ∧
        toFloat r.v_billable ≠ none)) := by
  unfold read_row
  dsimp only
  split
  next hcond =>
    exact ⟨by simp [hcond], by simp [hcond], by simp [hcond]⟩
  next hcond =>
    cases hb : toFloat r.v_billable with
    | none => exact ⟨by simp [hcond], by simp [hb, hcond, mkInvoiceRowModel],
        by simp [hb, hcond, mkInvoiceRowModel]⟩
    | some q => exact ⟨by simp [hcond], by simp [hb, hcond, mkInvoiceRowModel],
        by simp [hb, hcond, mkInvoiceRowModel]⟩

/-- Counterexample to C3 as stated: a row with an empty date cell, travel
time 1 and direct time -1 has duration fields that are not all empty or
zero, yet the importer skips it because the durations sum to zero. -/
theorem read_row_skip_counterexample :
    read_row ⟨2025, 10, 12⟩ ⟨"c1", "e1", "SPF"⟩
        ⟨CellValue.empty, CellValue.num 1, CellValue.num (-1),
          CellValue.empty, CellValue.empty⟩ = none ∧
      ¬(toFloat (CellValue.num 1) = none ∨ toFloat (CellValue.num 1) = some 0) := by
  constructor
  · unfold read_row
    dsimp only
    rw [if_pos ⟨rfl, by norm_num [toFloat]⟩]
  · simp [toFloat]

/-- C10 (amended): a position row whose date cell yields no date but whose
durations do not sum to zero and whose billable cell converts to a float
is kept, and its service_date is the current date at the time of the batch
run; when the billable cell converts to None instead, model
construction raises AttributeError and no row is produced. -/
theorem read_row_defaults_service_date_today (today : PyDate) (h : HeaderInfo)
    (r : RawPositionRow) (q : ℚ) (hdate : toDate r.v_date = none)
    (hsum : (toFloat r.v_travel).getD 0 + (toFloat r.v_direct).getD 0 +
      (toFloat r.v_indirect).getD 0 ≠ 0)
    (hbill : toFloat r.v_billable = some q) :
    ∃ row, read_row today h r = some (Except.ok row) ∧
      row.service_date = today := by
  unfold read_row
  dsimp only
  rw [if_neg fun hc => hsum hc.2, hbill]
  exact ⟨_, rfl, by simp [hdate]⟩

/-- Counterexample to C10 as stated: a row with an empty date cell, travel
time 1 and an empty billable cell is not kept at all - model construction
raises AttributeError inside the billable_hours validator instead of
producing a row with service_date set to the current date. -/
theorem read_row_billable_empty_not_kept :
    read_row ⟨2025, 10, 12⟩ ⟨"c1", "e1", "SPF"⟩
        ⟨CellValue.empty, CellValue.num 1, CellValue.empty,
          CellValue.empty, CellValue.empty⟩ =
      some (Except.error PyError.attributeError) := by
  unfold read_row
  dsimp only
  rw [if_neg fun hc => absurd hc.2 (by norm_num [toFloat])]
  rfl

/-- Witness for C10: a row with an empty date cell, travel time 1 and
billable hours 2 is kept with service_date equal to the import-time
date. -/
theorem read_row_defaults_service_date_today_witness :
    ∃ row,
      read_row ⟨2025, 10, 12⟩ ⟨"c1", "e1", "SPF"⟩
          ⟨CellValue.empty, CellValue.num 1, CellValue.empty,
            CellValue.empty, CellValue.num 2⟩ = some (Except.ok row) ∧
        row.service_date = ⟨2025, 10, 12⟩ :=
  read_row_defaults_service_date_today ⟨2025, 10, 12⟩ ⟨"c1", "e1", "SPF"⟩
    ⟨CellValue.empty, CellValue.num 1, CellValue.empty,
      CellValue.empty, CellValue.num 2⟩ 2
    rfl (by norm_num [toFloat]) rfl

/-- C7 evaluated against the code: in a file whose second position row has
an empty billable cell, the loop aborts with the uncaught AttributeError
and the third row is lost, although the same surrounding rows are both
kept when the failing row is absent.  A per-row validation failure of this
kind does abort the remaining rows of the file. -/
theorem read_rows_abort_on_attribute_error :
    read_rows ⟨2025, 10, 12⟩ ⟨"c1", "e1", "SPF"⟩
        [⟨CellValue.dateV ⟨2025, 1, 10⟩, CellValue.num 1, CellValue.num 2,
            CellValue.num 3, CellValue.num 4⟩,
          ⟨CellValue.dateV ⟨2025, 1, 11⟩, CellValue.num 1, CellValue.empty,
            CellValue.empty, CellValue.empty⟩,
          ⟨CellValue.dateV ⟨2025, 1, 12⟩, CellValue.num 2, CellValue.empty,
            CellValue.empty, CellValue.num 5⟩] =
      Except.error PyError.attributeError ∧
    (read_rows ⟨2025, 10, 12⟩ ⟨"c1", "e1", "SPF"⟩
        [⟨CellValue.dateV ⟨2025, 1, 10⟩, CellValue.num 1, CellValue.num 2,
            CellValue.num 3, CellValue.num 4⟩,
          ⟨CellValue.dateV ⟨2025, 1, 12⟩, CellValue.num 2, CellValue.empty,
            CellValue.empty, CellValue.num 5⟩]).map (fun p => p.1.length) =
      Except.ok 2 := by
  constructor <;>
    simp [read_rows, read_row, mkInvoiceRowModel, toFloat, toDate, Except.map]

/-! ### Transactional batch insert (TimeSheetsImporter._import_rows) -/

/-- Inner insert loop of the transaction: execute the insert of every record
in order; the first failing insert raises (none) and no later record is
attempted; otherwise the list of newly inserted records is returned. -/
def insert_all {α : Type} (fails : α → Bool) : List α → Option (List α)
  | [] => some []
  | r :: rs =>
    if fails r then none
    else (insert_all fails rs).map fun l => r :: l

/-- Embedding of TimeSheetsImporter._import_rows: one SQLite transaction per
batch.  If any insert raises, the transaction is rolled back, the
invoice_data table keeps its previous contents (the error carries the
unchanged table and the exception is re-raised); otherwise the commit
appends all rows and the returned count is incremented once per inserted
row. -/
def import_rows {α : Type} (table rows : List α) (fails : α → Bool) :
    Except (List α) (List α × ℕ) :=
  match insert_all fails rows with
  | none => Except.error table
  | some inserted => Except.ok (table ++ inserted, inserted.length)

theorem insert_all_eq_none {α : Type} (fails : α → Bool) (rows : List α)
    (hr : ∃ r ∈ rows, fails r = true) : insert_all fails rows = none := by
  induction rows with
  | nil => simp at hr
  | cons x xs ih =>
    rcases hr with ⟨r, hmem, hfail⟩
    rcases List.mem_cons.1 hmem with heq | hmem
    · subst heq
      simp [insert_all, hfail]
    · unfold insert_all
      rw [ih ⟨r, hmem, hfail⟩]
      split <;> rfl

theorem insert_all_eq_some {α : Type} (fails : α → Bool) (rows : List α)
    (hr : ∀ r ∈ rows, fails r = false) : insert_all fails rows = some rows := by
  induction rows with
  | nil => rfl
  | cons x xs ih =>
    unfold insert_all
    rw [hr x (List.mem_cons_self x xs), ih fun r hm => hr r (List.mem_cons_of_mem x hm)]
    rfl

/-- C6: a batch database import is atomic.  If inserting any row raises, the
transaction is rolled back and the invoice_data table is unchanged; if no
insert raises, all rows of the batch are appended and the returned count
equals the number of rows. -/
theorem import_rows_atomic {α : Type} (table rows : List α) (fails : α → Bool) :
    ((∃ r ∈ rows, fails r = true) →
      import_rows table rows fails = Except.error table) ∧
    ((∀ r ∈ rows, fails r = false) →
      import_rows table rows fails = Except.ok (table ++ rows, rows.length)) := by
  constructor
  · intro hr
    unfold import_rows
    rw [insert_all_eq_none fails rows hr]
  · intro hr
    unfold import_rows
    rw [insert_all_eq_some fails rows hr]

/-- Witness for C6: with a failing insert among two rows the table [0] is
unchanged; with no failing insert both rows are appended and the count
is 2. -/
theorem import_rows_atomic_witness :
    import_rows [0] [1, 2] (fun n => decide (n = 2)) = Except.error [0] ∧
    import_rows [0] [1, 2] (fun _ => false) = Except.ok ([0, 1, 2], 2) :=
  ⟨(import_rows_atomic [0] [1, 2] (fun n => decide (n = 2))).1
      ⟨2, by decide, by decide⟩,
    (import_rows_atomic [0] [1, 2] (fun _ => false)).2 (by decide)⟩

/-! ### Payer/client grouping with column sums
(src/module/invoice_processor.py, InvoiceProcessor.run) -/

/-- First-occurrence list of distinct keys (the set of group keys formed by
the pandas groupby; the order of the groups is irrelevant to the totals). -/
def distinct_keys {K : Type} [DecidableEq K] : List K → List K
  | [] => []
  | k :: ks => k :: (distinct_keys ks).filter fun x => decide (¬x = k)

/-- Embedding of a DataFrame groupby: one group per distinct key value,
containing exactly the rows whose key equals the group key. -/
def group_by {α K : Type} [DecidableEq K] (key : α → K) (rows : List α) :
    List (K × List α) :=
  (distinct_keys (rows.map key)).map fun k =>
    (k, rows.filter fun r => decide (key r = k))

/-- Embedding of the per-group totals: the sum of one summable column over
the rows of a group (client_details[col].sum() in InvoiceProcessor.run). -/
def column_sum {α M : Type} [AddCommMonoid M] (col : α → M) (rows : List α) : M :=
  (rows.map col).sum

theorem mem_group_by {α K : Type} [DecidableEq K] {key : α → K}
    {rows g : List α} {k : K} (h : (k, g) ∈ group_by key rows) :
    g = rows.filter fun r => decide (key r = k) := by
  rcases List.mem_map.1 h with ⟨k0, _, heq⟩
  obtain ⟨hk, hg⟩ := Prod.mk.injEq .. ▸ heq
  subst hk
  exact hg.symm

/-- C5: for every payer group formed from the loaded rows and every client
group formed inside it, the total of a summable column over the client
group equals the sum of that column over exactly the rows of the original
data that belong to that payer and that client. -/
theorem group_totals_eq_sum {α K M : Type} [DecidableEq K] [AddCommMonoid M]
    (rows : List α) (payerKey clientKey : α → K) (col : α → M)
    (p c : K) (pd cd : List α)
    (hp : (p, pd) ∈ group_by payerKey rows)
    (hc : (c, cd) ∈ group_by clientKey pd) :
    column_sum col cd =
      column_sum col (rows.filter fun r =>
        decide (payerKey r = p) && decide (clientKey r = c)) := by
  rw [mem_group_by hc, mem_group_by hp, List.filter_filter]
  congr 1
  apply List.filter_congr
  intro a _
  exact Bool.and_comm _ _

/-- Witness for C5: four rows with two payers; the total of the value column
over the client group (payer 1, client 1) equals the sum over exactly the
matching rows of the source data. -/
theorem group_totals_eq_sum_witness :
    column_sum (fun r : ℕ × ℕ × ℕ => r.2.2)
        [(1, 1, 10), (1, 1, 5)] =
      column_sum (fun r : ℕ × ℕ × ℕ => r.2.2)
        ([(1, 1, 10), (1, 2, 3), (2, 1, 7), (1, 1, 5)].filter fun r =>
          decide (r.1 = 1) && decide (r.2.1 = 1)) :=
  group_totals_eq_sum [(1, 1, 10), (1, 2, 3), (2, 1, 7), (1, 1, 5)]
    (fun r => r.1) (fun r => r.2.1) (fun r => r.2.2) 1 1
    [(1, 1, 10), (1, 2, 3), (1, 1, 5)] [(1, 1, 10), (1, 1, 5)]
    (by decide) (by decide)

/-! ### Entity model (src/module/entity.py) -/

/-- Flat entity with address fields; the business key is the field key. -/
structure Entity where
  name : String
  name_2 : String
  street : String
  zip : String
  city : String
  zip_city : String
  key : String
  deriving DecidableEq

/-- Validator empty_name_2: the literal text (leer) in the second name field
is replaced by the empty string. -/
def empty_name_2 (v : String) : String := if v = "(leer)" then "" else v

/-- Construction of an Entity under pydantic v2 dispatch, with the fields
validated in declaration order (name, name_2, street, zip, city, zip_city,
key).  name_2 is cleaned by the single-argument validator empty_name_2,
which works under v2.  The zip_city argument is three-state: none models a
payload without the zip_city key - the split_zip_city validator is skipped
and the empty-string default is stored, so zip and city stay as given and
no join is computed; some zc models an explicitly provided value, for
which the validator runs with a ValidationInfo second argument: the
non-empty branch immediately attempts the item assignment of the split
parts into values and raises TypeError, and the empty branch calls
values.get and raises AttributeError.  On no path is the join of zip and
city ever stored, and on no path does a provided zip_city survive
construction. -/
def mkEntity (name name_2 street zip city : String) (zip_city : Option String)
    (key : String) : Except PyError Entity :=
  match zip_city with
  | none => Except.ok ⟨name, empty_name_2 name_2, street, zip, city, "", key⟩
  | some zc =>
    if zc ≠ "" then Except.error PyError.typeError
    else Except.error PyError.attributeError

/-- C8 evaluated at the failing input: an Entity constructed with zip 8000
and city Zuerich and no zip_city key keeps those parts but stores an empty
zip_city instead of their join - the validator that would compute it is
skipped for the absent field, and passing zip_city explicitly does not
help: a non-empty zip_city raises TypeError in the split branch and an
empty one raises AttributeError in the join branch, so neither half of the
split/join invariant is effective. -/
theorem entity_zip_city_join_discarded :
    mkEntity "" "" "" "8000" "Zürich" none "" =
      Except.ok ⟨"", "", "", "8000", "Zürich", "", ""⟩ ∧
    ("8000" ++ " " ++ "Zürich" ≠ "") ∧
    mkEntity "" "" "" "" "" (some "8000 Zürich") "" =
      Except.error PyError.typeError ∧
    mkEntity "" "" "" "8000" "Zürich" (some "") "" =
      Except.error PyError.attributeError := by
  refine ⟨rfl, by decide, ?_, ?_⟩
  · simp [mkEntity]
  · simp [mkEntity]

/-! ### Invoice data loading (src/invoices/modules/data_loader.py) -/

/-- Cellwise replacement performed by DataLoader.load_data: the pandas
replace call turns every cell equal to the text (Leer) - with a capital L -
into the empty string and leaves every other cell unchanged. -/
def replace_leer (c : CellValue) : CellValue :=
  if c = CellValue.textV "(Leer)" then CellValue.textV "" else c

/-- Embedding of DataLoader.load_data on the cell grid of the worksheet:
skip the three metadata rows and the header row, drop the first column of
every data row, and apply the cellwise replacement.  (The subsequent
dynamic filtering by the filter object does not change cell values.) -/
def load_data (grid : List (List CellValue)) : List (List CellValue) :=
  ((grid.drop 4).map fun row => row.drop 1).map (List.map replace_leer)

/-- Counterexample to C9 as stated: a raw cell equal to the lowercase text
(leer) passes through the data-loading layer unchanged; only the exact text
(Leer) is replaced. -/
theorem load_data_leer_lowercase_unchanged :
    load_data
        [[], [], [], [],
          [CellValue.textV "id", CellValue.textV "(leer)"]] =
      [[CellValue.textV "(leer)"]] ∧
    CellValue.textV "(leer)" ≠ CellValue.textV "" := by
  refine ⟨rfl, by decide⟩

/-- C9 (amended): the data loader converts exactly the cells equal to the
text (Leer) - capital L - to the empty string, leaving all other cells
unchanged, and the entity layer converts the value (leer) - lowercase - of
the name_2 field to the empty string. -/
theorem load_data_replaces_capital_leer :
    (∀ g : List (List CellValue), ∀ i j : ℕ,
      ((load_data g)[i]?).bind (fun row => row[j]?) =
        ((((g.drop 4).map fun row => row.drop 1)[i]?).bind
          (fun row => row[j]?)).map replace_leer) ∧
    replace_leer (CellValue.textV "(Leer)") = CellValue.textV "" ∧
    (∀ c : CellValue, c ≠ CellValue.textV "(Leer)" → replace_leer c = c) ∧
    empty_name_2 "(leer)" = "" := by
  refine ⟨?_, rfl, ?_, rfl⟩
  · intro g i j
    unfold load_data
    rw [List.getElem?_map]
    cases hrow : (((g.drop 4).map fun row => row.drop 1)[i]?) with
    | none => rfl
    | some row =>
      simp [List.getElem?_map]
  · intro c hc
    unfold replace_leer
    rw [if_neg hc]

end Wegpiraten
